import Mathlib

/-!
# go-ibft: the backend contract (`core/backend.go`)

`core/backend.go` declares three Go interfaces: `MessageConstructor`,
`Verifier` and `Backend` (which embeds the other two).  The file contains
declarations only: no method has a body in this repository.

The declarations are embedded twice: as a table of method signatures
(`MessageConstructorMethods`, `VerifierMethods`, `BackendMethods`), and as
capability records (`MessageConstructor`, `Verifier`, `Backend`) whose fields
are state-passing functions with the argument and result types of the Go
signatures.  The theorems are about these declarations.
-/

namespace IBFT

/-! ## Signatures of `core/backend.go` -/

/-- Go types that occur in the signatures of `core/backend.go`. -/
inductive GoType where
  | bytes
  | uint64
  | bool
  | ptrRoundChangeCertificate
  | ptrPreparedCertificate
  | ptrView
  | ptrMessage
  | ptrCommittedSeal
  | sliceOfPtrCommittedSeal
  deriving DecidableEq, Repr

/-- Every method name declared in `core/backend.go`. -/
inductive MethodName where
  | BuildPrePrepareMessage
  | BuildPrepareMessage
  | BuildCommitMessage
  | BuildRoundChangeMessage
  | IsValidBlock
  | IsValidSender
  | IsProposer
  | IsValidProposalHash
  | IsValidCommittedSeal
  | BuildProposal
  | InsertBlock
  | ID
  | MaximumFaultyNodes
  | Quorum
  | IsActiveValidatorSubset
  | IsEpochHeight
  | HookBadValidator
  | HookValidatorSubsetCounterTimeout
  | FindBadValidatorAtHeight
  | EnableLiveFlag
  | IncreaseCounterTimeout
  | IsActiveValidator
  | IsActiveSignerStatus
  deriving DecidableEq, Repr

/-- A method signature: name, parameter types in order, result types in order.
Go has no checked exceptions; the only way a method can hand an error to its
caller is through a result. -/
structure Method where
  name : MethodName
  params : List GoType
  results : List GoType
  deriving DecidableEq, Repr

/-- Method set of `type MessageConstructor interface` (backend.go lines 9-29). -/
def MessageConstructorMethods : List Method :=
  [ ⟨.BuildPrePrepareMessage, [.bytes, .ptrRoundChangeCertificate, .ptrView], [.ptrMessage]⟩,
    ⟨.BuildPrepareMessage, [.bytes, .ptrView], [.ptrMessage]⟩,
    ⟨.BuildCommitMessage, [.bytes, .ptrView], [.ptrMessage]⟩,
    ⟨.BuildRoundChangeMessage, [.bytes, .ptrPreparedCertificate, .ptrView], [.ptrMessage]⟩ ]

/-- Method set of `type Verifier interface` (backend.go lines 32-47). -/
def VerifierMethods : List Method :=
  [ ⟨.IsValidBlock, [.bytes], [.bool]⟩,
    ⟨.IsValidSender, [.ptrMessage], [.bool]⟩,
    ⟨.IsProposer, [.bytes, .uint64, .uint64], [.bool]⟩,
    ⟨.IsValidProposalHash, [.bytes, .bytes], [.bool]⟩,
    ⟨.IsValidCommittedSeal, [.bytes, .ptrCommittedSeal], [.bool]⟩ ]

/-- Methods that `type Backend interface` declares itself (backend.go lines 55-96). -/
def BackendOwnMethods : List Method :=
  [ ⟨.BuildProposal, [.uint64], [.bytes]⟩,
    ⟨.InsertBlock, [.bytes, .sliceOfPtrCommittedSeal], []⟩,
    ⟨.ID, [], [.bytes]⟩,
    ⟨.MaximumFaultyNodes, [], [.uint64]⟩,
    ⟨.Quorum, [.uint64], [.uint64]⟩,
    ⟨.IsActiveValidatorSubset, [], [.bool]⟩,
    ⟨.IsEpochHeight, [.uint64], [.bool]⟩,
    ⟨.HookBadValidator, [.uint64, .bytes, .uint64], []⟩,
    ⟨.HookValidatorSubsetCounterTimeout, [.uint64, .bytes, .uint64], []⟩,
    ⟨.FindBadValidatorAtHeight, [.uint64, .bytes], [.bytes]⟩,
    ⟨.EnableLiveFlag, [], []⟩,
    ⟨.IncreaseCounterTimeout, [], []⟩,
    ⟨.IsActiveValidator, [], [.bool]⟩,
    ⟨.IsActiveSignerStatus, [], [.bool]⟩ ]

/-- Method set of `type Backend interface`: the two embedded interfaces
(lines 52-53) followed by the methods it declares itself. -/
def BackendMethods : List Method :=
  MessageConstructorMethods ++ VerifierMethods ++ BackendOwnMethods

/-- Signature of the method called `n` in a method set, if there is one. -/
def lookupMethod (ms : List Method) (n : MethodName) : Option Method :=
  ms.find? (fun m => decide (m.name = n))

/-- Go's rule for interface satisfaction, on method sets: a value whose method
set is `have_` can be used where `want` is required when every method of
`want` occurs in `have_` under the same name with the same signature. -/
def implements (have_ want : List Method) : Bool :=
  want.all (fun m => decide (lookupMethod have_ m.name = some m))

/-! ## Data carried across the interface -/

/-- Go `[]byte`. -/
abbrev Bytes := List (Fin 256)

/-- Modelled from the spec: `proto.View` is declared in another package; the
spec gives `view = (height: uint64, round: uint64)`. -/
structure View where
  height : Nat
  round : Nat
  deriving DecidableEq, Repr

/-- Modelled from the spec: the four protocol message kinds. -/
inductive MessageType where
  | PREPREPARE
  | PREPARE
  | COMMIT
  | ROUND_CHANGE
  deriving DecidableEq, Repr

/-- Modelled from the spec: `proto.RoundChangeCertificate` is declared in
another package; the spec describes it as a set of ROUND-CHANGE messages.  The
members are kept in wire form. -/
structure RoundChangeCertificate where
  roundChangeMessages : List Bytes
  deriving DecidableEq, Repr

/-- Modelled from the spec: `proto.PreparedCertificate` is declared in another
package; the spec describes it as the originating PRE-PREPARE plus a set of
PREPARE messages.  The members are kept in wire form. -/
structure PreparedCertificate where
  proposalMessage : Bytes
  prepareMessages : List Bytes
  deriving DecidableEq, Repr

/-- Modelled from the spec: the variant-specific payloads of a protocol
message (proposal + round-change certificate; proposal hash; proposal hash +
committed seal; last-prepared proposal + prepared certificate). -/
inductive Payload where
  | preprepare (proposal : Bytes) (certificate : Option RoundChangeCertificate)
  | prepare (proposalHash : Bytes)
  | commit (proposalHash : Bytes) (committedSeal : Bytes)
  | roundChange (lastPreparedProposal : Bytes) (certificate : Option PreparedCertificate)
  deriving DecidableEq, Repr

/-- Modelled from the spec: `proto.Message` is declared in another package;
the spec gives the field set `(view, kind, sender, payload, signature)`. -/
structure Message where
  view : View
  kind : MessageType
  sender : Bytes
  payload : Payload
  signature : Bytes
  deriving DecidableEq, Repr

/-- Modelled from the spec: `messages.CommittedSeal` is declared in another
package; the spec describes a signature over the proposal hash bound to the
signer's validator ID. -/
structure CommittedSeal where
  signer : Bytes
  signature : Bytes
  deriving DecidableEq, Repr

/-! ## The interfaces as capability records

A Go method has a receiver whose state it may read and write, so a method
`M(a) r` on a receiver with state `σ` becomes `σ → a → r × σ`, and a method
without results becomes `σ → a → σ`.  A Go pointer argument may be nil and
becomes an `Option`. -/

/-- The interface `MessageConstructor` of `core/backend.go`. -/
structure MessageConstructor (σ : Type) where
  BuildPrePrepareMessage :
    σ → Bytes → Option RoundChangeCertificate → Option View → Option Message × σ
  BuildPrepareMessage : σ → Bytes → Option View → Option Message × σ
  BuildCommitMessage : σ → Bytes → Option View → Option Message × σ
  BuildRoundChangeMessage :
    σ → Bytes → Option PreparedCertificate → Option View → Option Message × σ

/-- The interface `Verifier` of `core/backend.go`. -/
structure Verifier (σ : Type) where
  IsValidBlock : σ → Bytes → Bool × σ
  IsValidSender : σ → Option Message → Bool × σ
  IsProposer : σ → Bytes → Nat → Nat → Bool × σ
  IsValidProposalHash : σ → Bytes → Bytes → Bool × σ
  IsValidCommittedSeal : σ → Bytes → Option CommittedSeal → Bool × σ

/-- The interface `Backend` of `core/backend.go`: it embeds `MessageConstructor`
and `Verifier` and adds fourteen methods of its own. -/
structure Backend (σ : Type) extends MessageConstructor σ, Verifier σ where
  BuildProposal : σ → Nat → Bytes × σ
  InsertBlock : σ → Bytes → List (Option CommittedSeal) → σ
  ID : σ → Bytes × σ
  MaximumFaultyNodes : σ → Nat × σ
  Quorum : σ → Nat → Nat × σ
  IsActiveValidatorSubset : σ → Bool × σ
  IsEpochHeight : σ → Nat → Bool × σ
  HookBadValidator : σ → Nat → Bytes → Nat → σ
  HookValidatorSubsetCounterTimeout : σ → Nat → Bytes → Nat → σ
  FindBadValidatorAtHeight : σ → Nat → Bytes → Bytes × σ
  EnableLiveFlag : σ → σ
  IncreaseCounterTimeout : σ → σ
  IsActiveValidator : σ → Bool × σ
  IsActiveSignerStatus : σ → Bool × σ

/-- Go's conversion of a `Backend` value to the interface `MessageConstructor`:
each method of the target is the method of the same name of the value. -/
def Backend.asMessageConstructor {σ : Type} (b : Backend σ) : MessageConstructor σ where
  BuildPrePrepareMessage := b.BuildPrePrepareMessage
  BuildPrepareMessage := b.BuildPrepareMessage
  BuildCommitMessage := b.BuildCommitMessage
  BuildRoundChangeMessage := b.BuildRoundChangeMessage

/-- Go's conversion of a `Backend` value to the interface `Verifier`. -/
def Backend.asVerifier {σ : Type} (b : Backend σ) : Verifier σ where
  IsValidBlock := b.IsValidBlock
  IsValidSender := b.IsValidSender
  IsProposer := b.IsProposer
  IsValidProposalHash := b.IsValidProposalHash
  IsValidCommittedSeal := b.IsValidCommittedSeal

/-! ## Properties of the declarations -/

/-- Every method of `Verifier` is declared with exactly one result, of type
`bool`; in particular none has an `error` result. -/
theorem verifierMethods_results :
    VerifierMethods.map (fun m => m.name) =
      [.IsValidBlock, .IsValidSender, .IsProposer, .IsValidProposalHash,
        .IsValidCommittedSeal] ∧
    (∀ m ∈ VerifierMethods, m.results = [GoType.bool]) := by
  exact ⟨by decide, by decide⟩

/-- The methods `HookBadValidator`, `HookValidatorSubsetCounterTimeout` and
`IncreaseCounterTimeout` of `Backend` are declared without any result. -/
theorem hookMethods_results :
    ∀ n ∈ [MethodName.HookBadValidator, MethodName.HookValidatorSubsetCounterTimeout,
        MethodName.IncreaseCounterTimeout],
      ∃ m, lookupMethod BackendMethods n = some m ∧ m.results = [] := by
  decide

/-- C10: `Backend` subsumes `MessageConstructor` and `Verifier`.  On method
sets, every method of the two smaller interfaces occurs in the method set of
`Backend` with the same name and signature, so a `Backend` satisfies both; on
values, converting a `Backend` to either interface gives exactly the embedded
part, and every converted operation is the `Backend`'s own operation. -/
theorem backend_subsumes_constructor_and_verifier :
    implements BackendMethods MessageConstructorMethods = true ∧
    implements BackendMethods VerifierMethods = true ∧
    (∀ m ∈ MessageConstructorMethods ++ VerifierMethods,
      lookupMethod BackendMethods m.name = some m) ∧
    (∀ (σ : Type) (b : Backend σ),
      b.asMessageConstructor = b.toMessageConstructor ∧
      b.asVerifier = b.toVerifier ∧
      b.asMessageConstructor.BuildPrePrepareMessage = b.BuildPrePrepareMessage ∧
      b.asMessageConstructor.BuildPrepareMessage = b.BuildPrepareMessage ∧
      b.asMessageConstructor.BuildCommitMessage = b.BuildCommitMessage ∧
      b.asMessageConstructor.BuildRoundChangeMessage = b.BuildRoundChangeMessage ∧
      b.asVerifier.IsValidBlock = b.IsValidBlock ∧
      b.asVerifier.IsValidSender = b.IsValidSender ∧
      b.asVerifier.IsProposer = b.IsProposer ∧
      b.asVerifier.IsValidProposalHash = b.IsValidProposalHash ∧
      b.asVerifier.IsValidCommittedSeal = b.IsValidCommittedSeal) := by
  refine ⟨by decide, by decide, by decide, ?_⟩
  intro σ b
  exact ⟨rfl, rfl, rfl, rfl, rfl, rfl, rfl, rfl, rfl, rfl, rfl⟩

end IBFT
